import Mathlib

/-!
Shallow embedding of the `dlpackrs` crate (safe Rust wrapper around the
DLPack tensor interchange format), covering the code paths that the
specification's claims speak about: the enumeration conversions in
`src/device.rs` and `src/datatype.rs`, the descriptor view `Tensor` in
`src/tensor.rs`, and the managed-ownership types `ManagerContext`,
`ManagedTensorProxy` and `ManagedTensor` in `src/tensor.rs`.

Machine integers are modelled as `Nat`/`Int` with explicit `% 2 ^ w`
wherever the source can overflow or reinterpret bits.  Raw pointers are
modelled at the value level: a pointer is either null (`none` / `0`) or
carries the pointed-to value; an array pointer carries the memory behind
it as a function from index to cell value.  A Rust `panic` / failed
assertion is modelled by `ConvResult.fatal`, a returned typed error by
`ConvResult.err`.  Deleter callbacks are foreign function pointers; they
are modelled by an opaque numeric identity, and destructor dispatch is
modelled as the list of calls `(deleter identity, argument record)` the
code emits.
-/

namespace Dlpackrs

/-- Outcome of a fallible conversion in the source: a normal value, an
unrecoverable panic (with its message), or a typed error returned to the
caller (with the payload it carries). -/
inductive ConvResult (α : Type) where
  | ok (val : α)
  | fatal (msg : String)
  | err (msg : String)
deriving DecidableEq

/-- True exactly on the typed-error outcome. -/
def ConvResult.isErr {α : Type} : ConvResult α → Bool
  | .err _ => true
  | _ => false

/-- True exactly on the panic outcome. -/
def ConvResult.isFatal {α : Type} : ConvResult α → Bool
  | .fatal _ => true
  | _ => false

/-- True exactly on the normal outcome. -/
def ConvResult.isOk {α : Type} : ConvResult α → Bool
  | .ok _ => true
  | _ => false

/-- Word size helpers: `usize`/`u64` arithmetic wraps modulo `2 ^ 64`. -/
def U64 : Nat := 2 ^ 64

/-- Reinterpretation of an `i64` cell as a `usize` (two's complement bitcast),
used when `shape`/`strides` arrays of `i64` are viewed as `&[usize]`. -/
def i64ToUsize (x : Int) : Nat := (x % (2 ^ 64 : Int)).toNat

/-- Cast `i32 as usize`: sign-extend to 64 bits and reinterpret. -/
def i32ToUsize (n : Int) : Nat := (n % (2 ^ 64 : Int)).toNat

/-- Cast `u64 as isize` on a 64-bit target: two's complement reinterpretation. -/
def u64ToIsize (n : Nat) : Int :=
  if n < 2 ^ 63 then (n : Int) else (n : Int) - 2 ^ 64

/-! ## `src/datatype.rs` -/

/-- Rust enum `DataTypeCode` (`#[repr(u8)]`, discriminants 0..5). -/
inductive DataTypeCode where
  | Int
  | UInt
  | Float
  | OpaqueHandle
  | Bfloat
  | Complex
deriving DecidableEq

/-- `impl From<DataTypeCode> for u8` in `src/datatype.rs`. -/
def DataTypeCode.toU8 : DataTypeCode → Nat
  | .Int => 0
  | .UInt => 1
  | .Float => 2
  | .OpaqueHandle => 3
  | .Bfloat => 4
  | .Complex => 5

/-- Modelled from the spec: the numeric value of the generated binding
constant `DLDataTypeCode_kDLInt` (the bindgen output of the vendored
DLPack header is not in the repository; the values are pinned by the
`#[repr(u8)]` discriminants of `DataTypeCode` in `src/datatype.rs`). -/
def DLDataTypeCode_kDLInt : Nat := 0

/-- Modelled from the spec: constant `DLDataTypeCode_kDLUInt`. -/
def DLDataTypeCode_kDLUInt : Nat := 1

/-- Modelled from the spec: constant `DLDataTypeCode_kDLFloat`. -/
def DLDataTypeCode_kDLFloat : Nat := 2

/-- Modelled from the spec: constant `DLDataTypeCode_kDLOpaqueHandle`. -/
def DLDataTypeCode_kDLOpaqueHandle : Nat := 3

/-- Modelled from the spec: constant `DLDataTypeCode_kDLBfloat`. -/
def DLDataTypeCode_kDLBfloat : Nat := 4

/-- Modelled from the spec: constant `DLDataTypeCode_kDLComplex`. -/
def DLDataTypeCode_kDLComplex : Nat := 5

/-- `impl TryFrom<DLDataTypeCode> for DataTypeCode` in `src/datatype.rs`:
matches the wire code against the six constants and otherwise returns
`Err(UnsupportedDataTypeCode(code.to_string()))`; the error payload is the
carried string of the unrecognized code. -/
def DataTypeCode.tryFromWire (code : Nat) : ConvResult DataTypeCode :=
  if code = DLDataTypeCode_kDLInt then .ok .Int
  else if code = DLDataTypeCode_kDLUInt then .ok .UInt
  else if code = DLDataTypeCode_kDLFloat then .ok .Float
  else if code = DLDataTypeCode_kDLOpaqueHandle then .ok .OpaqueHandle
  else if code = DLDataTypeCode_kDLBfloat then .ok .Bfloat
  else if code = DLDataTypeCode_kDLComplex then .ok .Complex
  else .err (toString code)

/-- Wire struct `ffi::DLDataType`: `{ code: u8, bits: u8, lanes: u16 }`. -/
structure DLDataType where
  code : Nat
  bits : Nat
  lanes : Nat
deriving DecidableEq

/-- Rust struct `DataType` (`#[repr(C)]`, fields `code: u8`, `bits: u8`,
`lanes: u16`) in `src/datatype.rs`. -/
structure DataType where
  code : Nat
  bits : Nat
  lanes : Nat
deriving DecidableEq

/-- `impl From<DataType> for DLDataType`: each field copied verbatim
(the `as u8` / `as u16` casts in the source are identity casts). -/
def DataType.toWire (d : DataType) : DLDataType :=
  { code := d.code, bits := d.bits, lanes := d.lanes }

/-- `impl From<DLDataType> for DataType`: each field copied verbatim. -/
def DataType.fromWire (d : DLDataType) : DataType :=
  { code := d.code, bits := d.bits, lanes := d.lanes }

/-! ## `src/device.rs` -/

/-- Rust enum `DeviceType` (`#[repr(u32)]` with explicit discriminants). -/
inductive DeviceType where
  | CPU
  | CUDA
  | CUDAHost
  | OpenCL
  | Vulkan
  | Metal
  | VPI
  | ROCM
  | ROCMHost
  | ExtDev
  | CUDAManaged
  | OneAPI
  | WebGPU
  | Hexagon
deriving DecidableEq

/-- Numeric discriminant of each `DeviceType` variant
(`impl From<DeviceType> for ffi::DLDeviceType` is `device_type as u32`). -/
def DeviceType.toWire : DeviceType → Nat
  | .CPU => 1
  | .CUDA => 2
  | .CUDAHost => 3
  | .OpenCL => 4
  | .Vulkan => 7
  | .Metal => 8
  | .VPI => 9
  | .ROCM => 10
  | .ROCMHost => 11
  | .ExtDev => 12
  | .CUDAManaged => 13
  | .OneAPI => 14
  | .WebGPU => 15
  | .Hexagon => 16

/-- The `enumn::N` derived function `DeviceType::n`: the variant whose
discriminant is the given value, if any. -/
def DeviceType.n (v : Nat) : Option DeviceType :=
  if v = 1 then some .CPU
  else if v = 2 then some .CUDA
  else if v = 3 then some .CUDAHost
  else if v = 4 then some .OpenCL
  else if v = 7 then some .Vulkan
  else if v = 8 then some .Metal
  else if v = 9 then some .VPI
  else if v = 10 then some .ROCM
  else if v = 11 then some .ROCMHost
  else if v = 12 then some .ExtDev
  else if v = 13 then some .CUDAManaged
  else if v = 14 then some .OneAPI
  else if v = 15 then some .WebGPU
  else if v = 16 then some .Hexagon
  else none

/-- `impl From<ffi::DLDeviceType> for DeviceType`:
`Self::n(v).expect("invalid enumeration value for ffi::DLDeviceType")` —
a panic, not a returned error, on an unrecognized wire value. -/
def DeviceType.fromWire (v : Nat) : ConvResult DeviceType :=
  match DeviceType.n v with
  | some d => .ok d
  | none => .fatal "invalid enumeration value for ffi::DLDeviceType"

/-- `impl Display for DeviceType` in `src/device.rs`. -/
def DeviceType.display : DeviceType → String
  | .CPU => "cpu"
  | .CUDA => "cuda"
  | .CUDAHost => "cuda_host"
  | .OpenCL => "opencl"
  | .Vulkan => "vulkan"
  | .Metal => "metal"
  | .VPI => "vpi"
  | .ROCM => "rocm"
  | .ROCMHost => "rocm_host"
  | .ExtDev => "ext_device"
  | .CUDAManaged => "cuda_managed"
  | .OneAPI => "one_api"
  | .WebGPU => "web_gpu"
  | .Hexagon => "hexagon"

/-- `impl From<&str> for DeviceType` in `src/device.rs`: matches the string
against the accepted forms and panics (`none` here) on anything else. -/
def DeviceType.ofStr (s : String) : Option DeviceType :=
  if s = "cpu" then some .CPU
  else if s = "cuda" then some .CUDA
  else if s = "cuda_host" then some .CUDAHost
  else if s = "opencl" then some .OpenCL
  else if s = "vulkan" then some .Vulkan
  else if s = "metal" then some .Metal
  else if s = "vpi" then some .VPI
  else if s = "rocm" then some .ROCM
  else if s = "rocm_host" then some .ROCMHost
  else if s = "ext_dev" then some .ExtDev
  else if s = "cuda_managed" then some .CUDAManaged
  else if s = "one_api" then some .OneAPI
  else if s = "web_gpu" then some .WebGPU
  else if s = "hexagon" then some .Hexagon
  else none

/-! ## `src/tensor.rs`: the descriptor view -/

/-- Wire struct `ffi::DLDevice`: `{ device_type: u32-sized enum, device_id: i32 }`. -/
structure DLDevice where
  device_type : Nat
  device_id : Int
deriving DecidableEq

/-- Wire struct `ffi::DLTensor`.  The `data` pointer is modelled by its
address (`0` is null; the code never dereferences it).  The `shape` and
`strides` pointers are dereferenced by the code, so they are modelled as
`none` (null) or the `i64` memory behind the pointer, a cell per index. -/
structure DLTensor where
  data : Nat
  device : DLDevice
  ndim : Int
  dtype : DLDataType
  shape : Option (Nat → Int)
  strides : Option (Nat → Int)
  byte_offset : Nat

/-- Rust struct `Tensor` (`#[repr(transparent)]` over `DLTensor`; the
lifetime parameter and `PhantomData` marker carry no run-time data). -/
structure Tensor where
  inner : DLTensor

/-- `impl From<Tensor> for DLTensor`: returns `ts.inner`. -/
def Tensor.toWire (ts : Tensor) : DLTensor := ts.inner

/-- `impl From<DLTensor> for Tensor`: wraps the record unchanged. -/
def Tensor.fromWire (dts : DLTensor) : Tensor := { inner := dts }

/-- `Tensor::from_raw(ptr: *mut DLTensor)`: `debug_assert!(!ptr.is_null())`
then reads `*ptr`.  The pointer is modelled as `none` (null) or the record
it points to; the failed assertion is the `fatal` outcome. -/
def Tensor.from_raw (ptr : Option DLTensor) : ConvResult Tensor :=
  match ptr with
  | none => .fatal "assertion failed: not ptr.is_null()"
  | some dlt => .ok { inner := dlt }

/-- `Tensor::dtype`: `self.inner.dtype.into()`. -/
def Tensor.dtype (t : Tensor) : DataType := DataType.fromWire t.inner.dtype

/-- `Tensor::ndim`: `self.inner.ndim as usize`. -/
def Tensor.ndim (t : Tensor) : Nat := i32ToUsize t.inner.ndim

/-- `Tensor::itemsize`: `ty.lanes() * ty.bits() / 8` in `usize` arithmetic. -/
def Tensor.itemsize (t : Tensor) : Nat :=
  (Tensor.dtype t).lanes * (Tensor.dtype t).bits % U64 / 8

/-- `Tensor::shape`: returns `None` when the shape pointer or the data
pointer is null, otherwise the `ndim`-long slice of the shape array,
with each `i64` cell reinterpreted as `usize`. -/
def Tensor.shape (t : Tensor) : Option (List Nat) :=
  match t.inner.shape with
  | none => none
  | some mem =>
    if t.inner.data = 0 then none
    else some ((List.range (i32ToUsize t.inner.ndim)).map (fun i => i64ToUsize (mem i)))

/-- `Tensor::strides`: same contract as `Tensor::shape` over the strides
pointer. -/
def Tensor.strides (t : Tensor) : Option (List Nat) :=
  match t.inner.strides with
  | none => none
  | some mem =>
    if t.inner.data = 0 then none
    else some ((List.range (i32ToUsize t.inner.ndim)).map (fun i => i64ToUsize (mem i)))

/-- `Tensor::byte_offset`: `self.inner.byte_offset as isize` — a `u64`
reinterpreted as a signed 64-bit value. -/
def Tensor.byte_offset (t : Tensor) : Int := u64ToIsize t.inner.byte_offset

/-- `v.iter().product::<usize>()`: product of the slice, wrapping `usize`
multiplication. -/
def usizeProd (l : List Nat) : Nat := l.foldl (fun a b => a * b % U64) 1

/-- `Tensor::size`:
`self.shape().map(|v| v.iter().product::<usize>() * (ty.bits() as usize * ty.lanes() as usize + 7) / 8)`.
Multiplication and division associate to the left, so the whole product
`prod * (bits*lanes + 7)` is computed first and only then divided by 8. -/
def Tensor.size (t : Tensor) : Option Nat :=
  (Tensor.shape t).map
    (fun v => usizeProd v * ((Tensor.dtype t).bits * (Tensor.dtype t).lanes % U64 + 7) % U64 / 8)

/-- Modelled from the spec (refinement comparison): "`size()` (total
buffer bytes) = product of shape extents, times `(bits*lanes + 7)/8`
(rounds up to whole bytes)" — the per-element byte count is rounded up
first and then multiplied by the number of elements. -/
def Tensor.sizeSpec (t : Tensor) : Option Nat :=
  (Tensor.shape t).map
    (fun v => v.prod * (((Tensor.dtype t).bits * (Tensor.dtype t).lanes + 7) / 8))

/-! ## `src/tensor.rs`: the managed types -/

/-- Wire struct `ffi::DLManagedTensor`.  `manager_ctx` is an opaque
pointer value (`0` is null, never dereferenced as data by this crate);
`deleter` is a foreign function pointer, modelled by an opaque numeric
identity (`none` is the null deleter). -/
structure DLManagedTensor where
  dl_tensor : DLTensor
  manager_ctx : Nat
  deleter : Option Nat

/-- Rust struct `ManagerContext<C>`: a pinned cell holding `None` or a
pointer through which the manager-context value is read back.  At the
value level the cell determines the context value obtained on deref,
which is what the conversions below use. -/
structure ManagerContext where
  ptr : Option Nat

/-- Rust struct `ManagedTensorProxy<C>`: descriptor + pinned context cell
+ optional deleter (the `transmute` of the foreign function pointer
preserves its identity). -/
structure ManagedTensorProxy where
  dl_tensor : DLTensor
  manager_ctx : ManagerContext
  deleter : Option Nat

/-- `impl From<DLManagedTensor> for ManagedTensorProxy<C>`: copies the
descriptor, wraps a null `manager_ctx` as `None` and a non-null one as a
pointer to the copied context field (whose deref yields the original
context value), and re-types the deleter without invoking it. -/
def ManagedTensorProxy.fromWire (dlmt : DLManagedTensor) : ManagedTensorProxy :=
  { dl_tensor := dlmt.dl_tensor
  , manager_ctx := { ptr := if dlmt.manager_ctx = 0 then none else some dlmt.manager_ctx }
  , deleter := dlmt.deleter }

/-- `impl From<ManagedTensorProxy<C>> for DLManagedTensor` (and the
identical-bodied `impl From<Pin<&mut ManagedTensorProxy<C>>>`):
re-materializes the raw record — descriptor verbatim, `manager_ctx`
null for `None` and the deref of the stored pointer otherwise, deleter
re-typed back without invoking it. -/
def ManagedTensorProxy.toWire (pmt : ManagedTensorProxy) : DLManagedTensor :=
  { dl_tensor := pmt.dl_tensor
  , manager_ctx := match pmt.manager_ctx.ptr with
      | none => 0
      | some v => v
  , deleter := pmt.deleter }

/-- One invocation of a foreign deleter: the function-pointer identity and
the raw record value whose address is passed to it. -/
def DeleterCall : Type := Nat × DLManagedTensor

/-- `PinnedDrop for ManagedTensorProxy` in `src/tensor.rs`: on drop,
re-materialize the raw record from the current fields and, if a deleter
is registered, call it once with (the address of) that record; with no
deleter, call nothing.  The result is the list of deleter calls the drop
emits, in order. -/
def ManagedTensorProxy.dropCalls (pmt : ManagedTensorProxy) : List DeleterCall :=
  let dlm := ManagedTensorProxy.toWire pmt
  match pmt.deleter with
  | some fptr => [(fptr, dlm)]
  | none => []

/-- Rust struct `ManagedTensor` (`#[repr(transparent)]` over the proxy;
it has no `Drop` of its own, so releasing the handle drops the proxy). -/
structure ManagedTensor where
  inner : ManagedTensorProxy

/-- `ManagedTensor::new(tensor, manager_ctx)`: builds the proxy with no
deleter registered. -/
def ManagedTensor.new (tensor : Tensor) (manager_ctx : Option Nat) : ManagedTensor :=
  { inner :=
    { dl_tensor := tensor.inner
    , manager_ctx := { ptr := manager_ctx }
    , deleter := none } }

/-- `ManagedTensor::set_deleter`: registers/replaces the deleter. -/
def ManagedTensor.set_deleter (mt : ManagedTensor) (deleter : Nat) : ManagedTensor :=
  { mt with inner := { mt.inner with deleter := some deleter } }

/-- Releasing the owning handle: `ManagedTensor` has no `Drop` impl, so
dropping it drops the embedded proxy, which runs the `PinnedDrop` above. -/
def ManagedTensor.releaseCalls (mt : ManagedTensor) : List DeleterCall :=
  ManagedTensorProxy.dropCalls mt.inner

/-- `ManagedTensor::into_raw`: `let ret: DLManagedTensor = self.inner.into();
&ret as *const _`.  The by-value `From<ManagedTensorProxy>` conversion
reads the (all-`Copy`) fields to build `ret` and then, at the end of the
conversion, drops its by-value proxy argument — `ManagedTensorProxy`
implements `Drop` via `PinnedDrop`, so that drop runs and emits its
deleter calls during `into_raw`.  The returned pointer addresses the
stack local `ret` (dangling after return; the record value is returned
here). -/
def ManagedTensor.into_raw (mt : ManagedTensor) : DLManagedTensor × List DeleterCall :=
  (ManagedTensorProxy.toWire mt.inner, ManagedTensorProxy.dropCalls mt.inner)

/-- `ManagedTensor::from_raw(ptr: *mut DLManagedTensor)`:
`debug_assert!(!ptr.is_null())` then converts `*ptr` into the proxy. -/
def ManagedTensor.from_raw (ptr : Option DLManagedTensor) : ConvResult ManagedTensor :=
  match ptr with
  | none => .fatal "assertion failed: not ptr.is_null()"
  | some dlmt => .ok { inner := ManagedTensorProxy.fromWire dlmt }

/-- `ManagedTensor::into_tensor`: discards context and deleter, returning
only the descriptor view. -/
def ManagedTensor.into_tensor (mt : ManagedTensor) : Tensor :=
  { inner := mt.inner.dl_tensor }

/-! ## Concrete fixtures (the spec's 2×3 contiguous float32 scenario and
variants used by witnesses and counterexamples) -/

/-- Descriptor over a 2×3 contiguous float32 buffer: non-null data,
shape [2,3], strides [3,1], byte_offset 0, dtype (code 2, bits 32, lanes 1). -/
def dlTensorF32x2x3 : DLTensor :=
  { data := 1024
  , device := { device_type := 1, device_id := 0 }
  , ndim := 2
  , dtype := { code := 2, bits := 32, lanes := 1 }
  , shape := some (fun i => if i = 0 then 2 else 3)
  , strides := some (fun i => if i = 0 then 3 else 1)
  , byte_offset := 0 }

/-- The 2×3 float32 descriptor wrapped as a view. -/
def tensorF32x2x3 : Tensor := { inner := dlTensorF32x2x3 }

/-- Same descriptor with null shape and strides pointers. -/
def tensorNullShape : Tensor :=
  { inner := { dlTensorF32x2x3 with shape := none, strides := none } }

/-- Same descriptor with a stored byte offset of `2 ^ 63` (high bit set). -/
def tensorBigOffset : Tensor :=
  { inner := { dlTensorF32x2x3 with shape := none, strides := none, byte_offset := 2 ^ 63 } }

/-- Managed proxy over the 2×3 descriptor with context pointer 2048 and a
registered deleter of identity 7. -/
def proxyWithDeleter : ManagedTensorProxy :=
  { dl_tensor := dlTensorF32x2x3
  , manager_ctx := { ptr := some 2048 }
  , deleter := some 7 }

/-- Owning handle around `proxyWithDeleter`. -/
def mtWithDeleter : ManagedTensor := { inner := proxyWithDeleter }

/-- Owning handle over the same proxy with no deleter registered. -/
def mtNoDeleter : ManagedTensor :=
  { inner := { proxyWithDeleter with deleter := none } }

/-! ## Claim theorems -/

/-- C1: releasing the owning handle runs the proxy's pinned drop; with a
registered deleter the drop invokes exactly that deleter exactly once,
passing the freshly re-materialized raw wire record, and with no deleter
it invokes no callback at all. -/
theorem release_invokes_registered_deleter_exactly_once (mt : ManagedTensor) :
    (∀ fptr, mt.inner.deleter = some fptr →
      ManagedTensor.releaseCalls mt = [(fptr, ManagedTensorProxy.toWire mt.inner)]) ∧
    (mt.inner.deleter = none → ManagedTensor.releaseCalls mt = []) := by
  constructor
  · intro fptr hf
    simp [ManagedTensor.releaseCalls, ManagedTensorProxy.dropCalls, hf]
  · intro h
    simp [ManagedTensor.releaseCalls, ManagedTensorProxy.dropCalls, h]

/-- Witness for C1 at the concrete handles: deleter 7 registered — exactly
one call with the re-materialized record; no deleter — no call. -/
theorem release_invokes_registered_deleter_exactly_once_witness :
    ManagedTensor.releaseCalls mtWithDeleter =
      [(7, ManagedTensorProxy.toWire mtWithDeleter.inner)] ∧
    ManagedTensor.releaseCalls mtNoDeleter = [] :=
  ⟨(release_invokes_registered_deleter_exactly_once mtWithDeleter).1 7 rfl,
   (release_invokes_registered_deleter_exactly_once mtNoDeleter).2 rfl⟩

/-- C2 (code bug evaluation): at the spec's example — shape [2,3], dtype
float32 — the source `size` returns 29 bytes because it computes
`(prod * (bits*lanes + 7)) / 8`, while the spec's formula (element size
rounded up to whole bytes, then multiplied by the element count) gives
24; `itemsize` returns 4 as specified. -/
theorem size_float32_2x3_divergence :
    Tensor.size tensorF32x2x3 = some 29 ∧
    Tensor.sizeSpec tensorF32x2x3 = some 24 ∧
    Tensor.itemsize tensorF32x2x3 = 4 := by
  refine ⟨by decide, by decide, by decide⟩

/-- C3: parsing the display string of a device kind yields the kind back
for all kinds except ExtDev, which displays as "ext_device" but is only
parsed from "ext_dev". -/
theorem deviceType_parse_display_roundtrip (d : DeviceType) :
    DeviceType.ofStr (DeviceType.display d) =
      (if d = DeviceType.ExtDev then none else some d) ∧
    DeviceType.ofStr "ext_dev" = some DeviceType.ExtDev := by
  cases d <;> exact ⟨by decide, by decide⟩

/-- C4 (code bug evaluation): `into_raw` does not bypass the destructor —
the by-value proxy conversion inside it drops the proxy, so a registered
deleter is invoked (once) during `into_raw` itself, even though the raw
record value produced equals the re-materialized record. -/
theorem into_raw_runs_deleter (mt : ManagedTensor) (fptr : Nat)
    (h : mt.inner.deleter = some fptr) :
    (ManagedTensor.into_raw mt).1 = ManagedTensorProxy.toWire mt.inner ∧
    (ManagedTensor.into_raw mt).2 = [(fptr, ManagedTensorProxy.toWire mt.inner)] := by
  constructor
  · rfl
  · simp [ManagedTensor.into_raw, ManagedTensorProxy.dropCalls, h]

/-- Witness for C4 at the concrete handle with deleter 7 registered. -/
theorem into_raw_runs_deleter_witness :
    (ManagedTensor.into_raw mtWithDeleter).2 =
      [(7, ManagedTensorProxy.toWire mtWithDeleter.inner)] :=
  (into_raw_runs_deleter mtWithDeleter 7 rfl).2

/-- C5 counterexample: wire device-type code 0 lies outside the enumerated
set, and the source conversion panics on it instead of returning a
recoverable typed error. -/
theorem deviceType_fromWire_panics_cex :
    DeviceType.n 0 = none ∧
    (DeviceType.fromWire 0).isErr = false ∧
    (DeviceType.fromWire 0).isFatal = true := by decide

/-- C5 amended: for wire values outside the enumerated sets, the numeric
data-type conversion returns a recoverable typed error carrying the
unrecognized value, while the numeric device-type conversion panics with
a fixed message; neither coerces to an in-range kind. -/
theorem wire_enum_rejection (v c : Nat)
    (hv : DeviceType.n v = none) (hc : 6 ≤ c) :
    DeviceType.fromWire v = .fatal "invalid enumeration value for ffi::DLDeviceType" ∧
    DataTypeCode.tryFromWire c = .err (toString c) := by
  constructor
  · simp [DeviceType.fromWire, hv]
  · have h0 : ¬ c = 0 := by omega
    have h1 : ¬ c = 1 := by omega
    have h2 : ¬ c = 2 := by omega
    have h3 : ¬ c = 3 := by omega
    have h4 : ¬ c = 4 := by omega
    have h5 : ¬ c = 5 := by omega
    simp [DataTypeCode.tryFromWire, DLDataTypeCode_kDLInt, DLDataTypeCode_kDLUInt,
      DLDataTypeCode_kDLFloat, DLDataTypeCode_kDLOpaqueHandle, DLDataTypeCode_kDLBfloat,
      DLDataTypeCode_kDLComplex, h0, h1, h2, h3, h4, h5]

/-- Witness for the amended C5 at device code 0 and data-type code 6. -/
theorem wire_enum_rejection_witness :
    DeviceType.fromWire 0 = .fatal "invalid enumeration value for ffi::DLDeviceType" ∧
    DataTypeCode.tryFromWire 6 = .err (toString 6) :=
  ⟨(wire_enum_rejection 0 6 (by decide) (by decide)).1,
   (wire_enum_rejection 0 6 (by decide) (by decide)).2⟩

/-- C6: a null raw pointer to `Tensor::from_raw` or
`ManagedTensor::from_raw` fails the run (assertion), neither recovering
nor returning a typed error; a non-null pointer constructs the wrapper
from the pointed-to record. -/
theorem from_raw_null_asserts :
    (Tensor.from_raw none).isFatal = true ∧
    (Tensor.from_raw none).isErr = false ∧
    (ManagedTensor.from_raw none).isFatal = true ∧
    (ManagedTensor.from_raw none).isErr = false ∧
    (∀ dlt, Tensor.from_raw (some dlt) = .ok { inner := dlt }) ∧
    (∀ dlmt, ManagedTensor.from_raw (some dlmt) =
      .ok { inner := ManagedTensorProxy.fromWire dlmt }) :=
  ⟨rfl, rfl, rfl, rfl, fun _ => rfl, fun _ => rfl⟩

/-- C7: `shape()`/`strides()` return `None` exactly when the respective
array pointer or the data pointer is null, and otherwise a view of
exactly `ndim` extents/strides, for every well-formed (nonnegative
32-bit) `ndim`. -/
theorem shape_strides_absent_or_ndim_view (t : Tensor)
    (h0 : 0 ≤ t.inner.ndim) (h1 : t.inner.ndim < 2 ^ 31) :
    (Tensor.shape t = none ↔ (t.inner.shape = none ∨ t.inner.data = 0)) ∧
    (Tensor.strides t = none ↔ (t.inner.strides = none ∨ t.inner.data = 0)) ∧
    (∀ l, Tensor.shape t = some l → (l.length : Int) = t.inner.ndim) ∧
    (∀ l, Tensor.strides t = some l → (l.length : Int) = t.inner.ndim) := by
  have hlen : (i32ToUsize t.inner.ndim : Int) = t.inner.ndim := by
    unfold i32ToUsize
    rw [Int.emod_eq_of_lt h0 (by omega)]
    exact Int.toNat_of_nonneg h0
  refine ⟨?_, ?_, ?_, ?_⟩
  · cases hs : t.inner.shape with
    | none => simp [Tensor.shape, hs]
    | some mem =>
      by_cases hd : t.inner.data = 0 <;> simp [Tensor.shape, hs, hd]
  · cases hs : t.inner.strides with
    | none => simp [Tensor.strides, hs]
    | some mem =>
      by_cases hd : t.inner.data = 0 <;> simp [Tensor.strides, hs, hd]
  · intro l hl
    cases hs : t.inner.shape with
    | none => simp [Tensor.shape, hs] at hl
    | some mem =>
      by_cases hd : t.inner.data = 0
      · simp [Tensor.shape, hs, hd] at hl
      · simp [Tensor.shape, hs, hd] at hl
        rw [← hl]
        simpa using hlen
  · intro l hl
    cases hs : t.inner.strides with
    | none => simp [Tensor.strides, hs] at hl
    | some mem =>
      by_cases hd : t.inner.data = 0
      · simp [Tensor.strides, hs, hd] at hl
      · simp [Tensor.strides, hs, hd] at hl
        rw [← hl]
        simpa using hlen

/-- Witness for C7: null shape pointer gives absence; the 2×3 descriptor
gives a 2-long view. -/
theorem shape_strides_absent_or_ndim_view_witness :
    Tensor.shape tensorNullShape = none ∧
    (([2, 3] : List Nat).length : Int) = (2 : Int) :=
  ⟨(shape_strides_absent_or_ndim_view tensorNullShape (by decide) (by decide)).1.mpr
      (Or.inl rfl),
   (shape_strides_absent_or_ndim_view tensorF32x2x3 (by decide) (by decide)).2.2.1
      [2, 3] (by decide)⟩

/-- C8: wire round-trip identity for every DataType value over the six
codes (u8 code, u8 bits, u16 lanes). -/
theorem dataType_wire_roundtrip (dt : DataType)
    (hc : dt.code < 6) (hb : dt.bits < 2 ^ 8) (hl : dt.lanes < 2 ^ 16) :
    DataType.fromWire (DataType.toWire dt) = dt := rfl

/-- Witness for C8 at float32 (code 2, bits 32, lanes 1). -/
theorem dataType_wire_roundtrip_witness :
    DataType.fromWire (DataType.toWire { code := 2, bits := 32, lanes := 1 }) =
      ({ code := 2, bits := 32, lanes := 1 } : DataType) :=
  dataType_wire_roundtrip { code := 2, bits := 32, lanes := 1 }
    (by decide) (by decide) (by decide)

/-- C9: converting a descriptor view to the raw wire record and back
reproduces every field verbatim (data, device, ndim, dtype, shape,
strides, byte_offset), for every stored byte_offset (zero or not). -/
theorem tensor_wire_roundtrip_every_field (t : Tensor) :
    (Tensor.fromWire (Tensor.toWire t)).inner.data = t.inner.data ∧
    (Tensor.fromWire (Tensor.toWire t)).inner.device = t.inner.device ∧
    (Tensor.fromWire (Tensor.toWire t)).inner.ndim = t.inner.ndim ∧
    (Tensor.fromWire (Tensor.toWire t)).inner.dtype = t.inner.dtype ∧
    (Tensor.fromWire (Tensor.toWire t)).inner.shape = t.inner.shape ∧
    (Tensor.fromWire (Tensor.toWire t)).inner.strides = t.inner.strides ∧
    (Tensor.fromWire (Tensor.toWire t)).inner.byte_offset = t.inner.byte_offset :=
  ⟨rfl, rfl, rfl, rfl, rfl, rfl, rfl⟩

/-- C10: `byte_offset()` is the stored u64 reinterpreted as a signed
two's-complement value — congruent to the stored value modulo `2 ^ 64`,
negative exactly when the stored value has its high bit set, and equal to
the stored value otherwise. -/
theorem byte_offset_twos_complement (t : Tensor)
    (h : t.inner.byte_offset < 2 ^ 64) :
    Tensor.byte_offset t % (2 ^ 64 : Int) = (t.inner.byte_offset : Int) % 2 ^ 64 ∧
    (2 ^ 63 ≤ t.inner.byte_offset → Tensor.byte_offset t < 0) ∧
    (t.inner.byte_offset < 2 ^ 63 → Tensor.byte_offset t = (t.inner.byte_offset : Int)) := by
  refine ⟨?_, ?_, ?_⟩ <;>
    simp only [Tensor.byte_offset, u64ToIsize] <;> split <;> omega

/-- Witness for C10 at a stored offset of `2 ^ 63`: the accessor is
negative and congruent to the stored value mod `2 ^ 64`. -/
theorem byte_offset_twos_complement_witness :
    Tensor.byte_offset tensorBigOffset < 0 ∧
    Tensor.byte_offset tensorBigOffset % (2 ^ 64 : Int) =
      (tensorBigOffset.inner.byte_offset : Int) % 2 ^ 64 :=
  ⟨(byte_offset_twos_complement tensorBigOffset (by decide)).2.1 (by decide),
   (byte_offset_twos_complement tensorBigOffset (by decide)).1⟩

end Dlpackrs
